import Mathlib

/-!
Verification development for `make.hh` (single source file `src/make.cc`),
a minimal self-bootstrapping build helper.  The definitions below are a
shallow embedding of the C++ code: the include scanner state machine
(`includes`, lines 53-129), the directory index (`includes_in_directory`,
lines 132-147), the include resolver (`resolve`, lines 150-180), the
process status type (`Status`, lines 350-364), the process runner
(`cmd_run`, lines 386-405) and the self-rebuild bootstrap (`rebuild_self`,
lines 461-484).
-/

namespace make

/-- The `Include` value type from `src/make.cc` lines 36-50.  The C++ field
named `include` (a reserved word in Lean) is called `target` here;
`maybe_relative` keeps its source name: it is `true` for a quote-delimited
include and `false` for an angle-bracket one. -/
structure Include where
  target : String
  maybe_relative : Bool
deriving DecidableEq, Repr

/-- Blank characters skipped by the scanner: the C++ code uses
`find_first_not_of(" \t")`. -/
def isBlank (c : Char) : Bool := c == ' ' || c == '\t'

/-- Skipping to the first character that is not a space or tab, as
`find_first_not_of(" \t")` followed by `remove_prefix` does. -/
def dropBlanks (l : List Char) : List Char := l.dropWhile isBlank

/-- State `Waits_For_Closing_Greater_Then` / `Waits_For_Closing_Quote`
(lines 108-118): `l.find(close)` succeeds iff `close` occurs in the rest of
the line; on success the include target is `l.substr(0, i)`, that is the
characters before the first occurrence of `close`. -/
def waits_for_closing (close : Char) (quoted : Bool) (l : List Char) :
    Option Include :=
  if close ∈ l then some ⟨(l.takeWhile (fun c => c != close)).asString, quoted⟩
  else none

/-- State `Waits_For_Opening` (lines 100-106): skip blanks, then a `<`
moves to the angle-closing state and a `"` to the quote-closing state;
anything else (or end of line) aborts the line. -/
def waits_for_opening (l : List Char) : Option Include :=
  if (dropBlanks l).head? = some '<' then
    waits_for_closing '>' false (dropBlanks l).tail
  else if (dropBlanks l).head? = some '"' then
    waits_for_closing '"' true (dropBlanks l).tail
  else none

/-- State `Waits_For_Include` (lines 89-98): skip blanks, require the
literal token `include` as a prefix of what remains, consume it.  The C++
code checks `l.substr(i).starts_with("include")` and then removes
`i + 7` characters, which is exactly `drop 7` after the blanks. -/
def waits_for_include (l : List Char) : Option Include :=
  if ("include".toList).isPrefixOf (dropBlanks l) then
    waits_for_opening ((dropBlanks l).drop 7)
  else none

/-- State `Waits_For_Hash` (lines 79-87): skip blanks, require `#`,
consume it.  If the line is all blanks or its first non-blank character is
not `#`, the line yields nothing. -/
def waits_for_hash (l : List Char) : Option Include :=
  if (dropBlanks l).head? = some '#' then
    waits_for_include (dropBlanks l).tail
  else none

/-- One line of the scanner loop of `includes` (lines 67-126): the state
machine is reset to `Waits_For_Hash` at every line, and each line emits at
most one `Include` (after the closing state the code jumps to
`next_line`).  The `!l.empty()` loop guard is absorbed into the states:
every state maps an empty remainder to no output, exactly as leaving the
loop early does. -/
def scanLine (line : String) : Option Include := waits_for_hash line.toList

/-- Content of a file as the C++ `std::ifstream` + `getline` loop sees it:
`none` models a path that is missing or unreadable (the stream fails to
open and the very first `getline` fails, so the loop body never runs). -/
def getlines : Option (List String) → List String
  | none => []
  | some ls => ls

/-- The file include extractor `includes` (lines 53-129): scan every line,
collect the emitted `Include` values into a set (`std::set<Include>`,
modelled as a `Finset`). -/
def includes (content : Option (List String)) : Finset Include :=
  (getlines content).foldl
    (fun acc line =>
      match scanLine line with
      | some inc => insert inc acc
      | none => acc) ∅

/-- One entry produced by `recursive_directory_iterator` over the root
(lines 139-144): its canonical (symlink-resolved absolute) path, whether it
is a regular file, its `path.extension()`, and its readable content
(`none` when opening the file would fail). -/
structure DirEntry where
  canonical_path : String
  is_regular_file : Bool
  extension : String
  content : Option (List String)

/-- The extension test actually performed on line 141 of `src/make.cc`:
`file.is_regular_file() && std::ranges::find(extensions, path.extension())`.
The call `std::ranges::find(...)` returns an iterator, which the `&&`
contextually converts to `bool`.  For the array ranges used in this
repository that iterator is a pointer into or one past the end of the
`extensions` array, and a one-past-the-end pointer of an array object is
never null, so the conversion yields `true` whether or not the extension
was found.  The membership result is discarded. -/
def extension_found_as_bool (_extensions : List String) (_ext : String) :
    Bool :=
  true

/-- The tree include index `includes_in_directory` (lines 132-147): walk
the entries, and for each regular file passing the (vacuous, see
`extension_found_as_bool`) extension test, `emplace` the pair
`(canonical path, includes of the file)` into the map.  `emplace` on
`std::map` keeps the existing entry when the key is already present. -/
def includes_in_directory (entries : List DirEntry)
    (extensions : List String) : List (String × Finset Include) :=
  entries.foldl
    (fun m e =>
      if e.is_regular_file && extension_found_as_bool extensions e.extension
      then
        if m.any (fun kv => kv.1 == e.canonical_path) then m
        else m ++ [(e.canonical_path, includes e.content)]
      else m) []

/-- A filesystem path: whether it is absolute and its component list.
`std::filesystem::path` is modelled only as far as `resolve` needs it. -/
structure FsPath where
  absolute : Bool
  components : List String
deriving DecidableEq, Repr

/-- `std::filesystem::path::operator/` as used in `resolve`: appending an
absolute path replaces the left side, appending a relative one
concatenates the components. -/
def pathAppend (a b : FsPath) : FsPath :=
  if b.absolute then b else ⟨a.absolute, a.components ++ b.components⟩

/-- Splitting the character list of a path string on `/` into non-empty
components, accumulator style. -/
def splitComponentsAux : List Char → List Char → List String
  | [], acc => if acc = [] then [] else [acc.reverse.asString]
  | c :: rest, acc =>
    if c = '/' then
      if acc = [] then splitComponentsAux rest []
      else acc.reverse.asString :: splitComponentsAux rest []
    else splitComponentsAux rest (c :: acc)

/-- The `std::filesystem::path p(include.include)` constructor on line
158: a string becomes a path, absolute iff it starts with `/`. -/
def parsePath (s : String) : FsPath :=
  ⟨s.toList.head? = some '/', splitComponentsAux s.toList []⟩

/-- The filesystem state `resolve` consults: the current working directory
(relative paths given to `is_regular_file` and `canonical` are resolved
against it), the set of existing regular files by absolute path, and the
symlink-resolving canonicalisation applied by `std::filesystem::canonical`. -/
structure FileSystem where
  cwd : FsPath
  regular : List FsPath
  canon : FsPath → FsPath

/-- Resolving a possibly relative path against the working directory, as
the OS does for every `std::filesystem` query on a relative path. -/
def absolutize (fs : FileSystem) (p : FsPath) : FsPath :=
  if p.absolute then p else pathAppend fs.cwd p

/-- `std::filesystem::is_regular_file` over the modelled filesystem. -/
def is_regular_file (fs : FileSystem) (p : FsPath) : Bool :=
  fs.regular.contains (absolutize fs p)

/-- `std::filesystem::canonical` over the modelled filesystem. -/
def canonical (fs : FileSystem) (p : FsPath) : FsPath :=
  fs.canon (absolutize fs p)

/-- The search-path loop of `resolve` (lines 173-177): first directory
whose join with the target names an existing regular file wins. -/
def search_paths_loop (fs : FileSystem) (p : FsPath) :
    List FsPath → Option FsPath
  | [] => none
  | d :: rest =>
    if is_regular_file fs (pathAppend d p) then
      some (canonical fs (pathAppend d p))
    else search_paths_loop fs p rest

/-- The include resolver `resolve` (lines 150-180), step for step: the
target taken verbatim as a path, then the absolute-path failure, then the
quoted-relative attempt `relative_to / p` (note: the code joins the
`relative_to` argument itself with the target, it never takes a parent
directory), then the search paths in order. -/
def resolve (fs : FileSystem) (inc : Include) (include_paths : List FsPath)
    (relative_to : FsPath) : Option FsPath :=
  if is_regular_file fs (parsePath inc.target) then
    some (canonical fs (parsePath inc.target))
  else if (parsePath inc.target).absolute then none
  else if inc.maybe_relative
      && is_regular_file fs (pathAppend relative_to (parsePath inc.target))
  then some (canonical fs (pathAppend relative_to (parsePath inc.target)))
  else search_paths_loop fs (parsePath inc.target) include_paths

/-- The `Status` struct (lines 350-364).  The C++ struct holds a `kind`
tag and an anonymous union of `exit_code` and `signal`, which share
storage; the two constructors carry that shared integer. -/
inductive Status where
  | EXIT (exit_code : Int)
  | SIGNAL (signal : Int)
deriving DecidableEq, Repr

/-- `Status::operator bool` (line 355): success is kind `EXIT` with exit
code `0`. -/
def Status.toBool : Status → Bool
  | .EXIT c => c == 0
  | .SIGNAL _ => false

/-- `Status::normalize_to_exit_code` (lines 357-363): an exit keeps its
code; a signal becomes `128 + exit_code`, which through the union is
`128 + signal`. -/
def Status.normalize_to_exit_code : Status → Int
  | .EXIT c => c
  | .SIGNAL s => 128 + s

/-- Outcome of one `cmd_run` call: either a panic (diagnostic printed and
the process aborted) identified by its message, or the status of the
awaited child. -/
inductive RunResult where
  | panicked (why : String)
  | completed (s : Status)
deriving DecidableEq, Repr

/-- Diagnostic message of the `panic_if(argv.empty(), ...)` guard on line
389 of `src/make.cc` (the C++ literal spells the first word with an
apostrophe). -/
def empty_command_msg : String := "couldn\x27t execute empty command"

/-- The process runner `cmd_run` (lines 386-405).  OS effects are
parameters: `fork_ok` tells whether `fork` succeeds, `child` is the
status `pid_wait` reports for the spawned child.  The first step is
`panic_if(argv.empty(), ...)`; a failed `fork` also panics, with a
different message; otherwise the child status is returned. -/
def cmd_run (argv : List String) (fork_ok : Bool) (child : Status) :
    RunResult :=
  if argv.isEmpty then .panicked empty_command_msg
  else if !fork_ok then .panicked "Failed to execute command"
  else .completed child

/-- Terminal behaviour of `rebuild_self`: fall through to normal program
logic, abort in `run_and_check` because the compile failed, or terminate
the process via `exit` with the given code. -/
inductive BootResult where
  | fallthrough
  | panicked
  | exited (code : Int)
deriving DecidableEq, Repr

/-- Observable effects of one `rebuild_self` call: whether the `.old`
backup copy was made, the argument vectors handed to `cmd_run` in order,
and the terminal behaviour. -/
structure BootOutcome where
  backup_created : Bool
  commands_run : List (List String)
  result : BootResult
deriving DecidableEq, Repr

/-- World state `rebuild_self` consults: the `last_write_time` of the
running binary and of its source, and the statuses the process runner
reports for the compile command and for the re-executed binary. -/
structure BootWorld where
  program_mtime : Int
  source_mtime : Int
  compile_status : Status
  rerun_status : Status

/-- The self-rebuild bootstrap `rebuild_self` (lines 461-484).  If the
binary is at least as new as the source it returns at once (line 468-470):
no backup, no command.  Otherwise it copies the binary to `.old`, runs the
compiler command `{compiler, "-std=c++20", "-o", program_path,
source_path}` through `run_and_check` (which panics unless the status is
successful), then runs `{program_path}` alone and exits with that status
normalised. -/
def rebuild_self (program_path source_path compiler : String)
    (w : BootWorld) : BootOutcome :=
  if w.program_mtime ≥ w.source_mtime then ⟨false, [], .fallthrough⟩
  else
    if (w.compile_status).toBool then
      ⟨true,
       [[compiler, "-std=c++20", "-o", program_path, source_path],
        [program_path]],
       .exited (w.rerun_status).normalize_to_exit_code⟩
    else ⟨true, [[compiler, "-std=c++20", "-o", program_path, source_path]],
          .panicked⟩

/-- A concrete filesystem for the resolver scenarios: working directory
`/cwd`, existing regular files `/proj/src/a.cc`, `/proj/src/b.h` and
`/proj/include/b.h`, no symlinks. -/
def proj_fs : FileSystem :=
  { cwd := ⟨true, ["cwd"]⟩
  , regular := [⟨true, ["proj", "src", "a.cc"]⟩, ⟨true, ["proj", "src", "b.h"]⟩,
                ⟨true, ["proj", "include", "b.h"]⟩]
  , canon := fun p => p }

/-- A concrete directory entry: a regular file `/r/notes.txt` whose
extension `.txt` is outside the C++ allow-lists, containing one include
line. -/
def txt_entry : DirEntry :=
  ⟨"/r/notes.txt", true, ".txt", some ["#include <vector>"]⟩

theorem dropBlanks_blanks_append (ws l : List Char)
    (h : ∀ c ∈ ws, isBlank c = true) :
    dropBlanks (ws ++ l) = dropBlanks l := by
  induction ws with
  | nil => rfl
  | cons a as ih =>
    have ha := h a (List.mem_cons_self a as)
    have ih' := ih (fun c hc => h c (List.mem_cons_of_mem a hc))
    simpa [dropBlanks, List.dropWhile_cons, ha] using ih'

theorem dropBlanks_cons_not_blank (c : Char) (l : List Char)
    (h : isBlank c = false) :
    dropBlanks (c :: l) = c :: l := by
  simp [dropBlanks, List.dropWhile_cons, h]

theorem isPrefixOf_self_append (l r : List Char) :
    l.isPrefixOf (l ++ r) = true := by
  induction l with
  | nil => simp [List.isPrefixOf]
  | cons a as ih => simp [List.isPrefixOf, ih]

theorem takeWhile_stops_at (cl : Char) :
    ∀ (x rest : List Char), (∀ c ∈ x, c ≠ cl) →
      (x ++ cl :: rest).takeWhile (fun c => c != cl) = x := by
  intro x
  induction x with
  | nil =>
    intro rest _
    simp [List.takeWhile_cons]
  | cons a as ih =>
    intro rest h
    have ha : (a != cl) = true := bne_iff_ne.mpr (h a (List.mem_cons_self a as))
    simp [List.takeWhile_cons, ha,
      ih rest (fun c hc => h c (List.mem_cons_of_mem a hc))]

theorem waits_for_hash_hash (ws l : List Char)
    (h : ∀ c ∈ ws, isBlank c = true) :
    waits_for_hash (ws ++ '#' :: l) = waits_for_include l := by
  unfold waits_for_hash
  rw [dropBlanks_blanks_append ws _ h, dropBlanks_cons_not_blank '#' l (by decide)]
  simp

theorem waits_for_include_keyword (ws l : List Char)
    (h : ∀ c ∈ ws, isBlank c = true) :
    waits_for_include (ws ++ ("include".toList ++ l)) = waits_for_opening l := by
  have e : dropBlanks ("include".toList ++ l) = "include".toList ++ l :=
    dropBlanks_cons_not_blank 'i' ("nclude".toList ++ l) (by decide)
  unfold waits_for_include
  rw [dropBlanks_blanks_append ws _ h, e, isPrefixOf_self_append,
    List.drop_left' (show ("include".toList).length = 7 from rfl)]
  simp

theorem waits_for_opening_angle (ws l : List Char)
    (h : ∀ c ∈ ws, isBlank c = true) :
    waits_for_opening (ws ++ '<' :: l) = waits_for_closing '>' false l := by
  unfold waits_for_opening
  rw [dropBlanks_blanks_append ws _ h, dropBlanks_cons_not_blank '<' l (by decide)]
  simp

theorem waits_for_opening_quote (ws l : List Char)
    (h : ∀ c ∈ ws, isBlank c = true) :
    waits_for_opening (ws ++ '"' :: l) = waits_for_closing '"' true l := by
  unfold waits_for_opening
  rw [dropBlanks_blanks_append ws _ h, dropBlanks_cons_not_blank '"' l (by decide)]
  simp

theorem waits_for_closing_emit (cl : Char) (quoted : Bool) (x rest : List Char)
    (hx : ∀ c ∈ x, c ≠ cl) :
    waits_for_closing cl quoted (x ++ cl :: rest) = some ⟨x.asString, quoted⟩ := by
  unfold waits_for_closing
  rw [if_pos (by simp), takeWhile_stops_at cl x rest hx]

theorem scanLine_angle (ws1 ws2 ws3 x rest : List Char)
    (h1 : ∀ c ∈ ws1, isBlank c = true) (h2 : ∀ c ∈ ws2, isBlank c = true)
    (h3 : ∀ c ∈ ws3, isBlank c = true) (hx : ∀ c ∈ x, c ≠ '>') :
    scanLine (String.mk (ws1 ++ '#' :: (ws2 ++ ("include".toList ++
        (ws3 ++ '<' :: (x ++ '>' :: rest))))))
      = some ⟨x.asString, false⟩ := by
  show waits_for_hash (ws1 ++ '#' :: (ws2 ++ ("include".toList ++
    (ws3 ++ '<' :: (x ++ '>' :: rest))))) = some ⟨x.asString, false⟩
  rw [waits_for_hash_hash ws1 _ h1, waits_for_include_keyword ws2 _ h2,
    waits_for_opening_angle ws3 _ h3, waits_for_closing_emit '>' false x rest hx]

theorem scanLine_quote (ws1 ws2 ws3 x rest : List Char)
    (h1 : ∀ c ∈ ws1, isBlank c = true) (h2 : ∀ c ∈ ws2, isBlank c = true)
    (h3 : ∀ c ∈ ws3, isBlank c = true) (hx : ∀ c ∈ x, c ≠ '"') :
    scanLine (String.mk (ws1 ++ '#' :: (ws2 ++ ("include".toList ++
        (ws3 ++ '"' :: (x ++ '"' :: rest))))))
      = some ⟨x.asString, true⟩ := by
  show waits_for_hash (ws1 ++ '#' :: (ws2 ++ ("include".toList ++
    (ws3 ++ '"' :: (x ++ '"' :: rest))))) = some ⟨x.asString, true⟩
  rw [waits_for_hash_hash ws1 _ h1, waits_for_include_keyword ws2 _ h2,
    waits_for_opening_quote ws3 _ h3, waits_for_closing_emit '"' true x rest hx]

/-- C1: the claim says a regular file whose extension is not in the
allow-list does not appear as a key of the file-to-includes map.  The code
violates this: on line 141 the iterator returned by `std::ranges::find` is
used directly as a boolean, and it is never null, so the allow-list is
ignored.  This theorem evaluates the embedded code at the failing input: a
regular file `/r/notes.txt` with extension `.txt` and allow-list `[".cc"]`
ends up as a key of the map even though `.txt` is not in the list. -/
theorem c1_extension_filter_inoperative :
    (includes_in_directory [txt_entry] [".cc"]).map Prod.fst
        = ["/r/notes.txt"] ∧
      txt_entry.extension ∉ ([".cc"] : List String) :=
  ⟨rfl, by decide⟩

/-- C2: the claim says that for a quoted include the resolver tries
`directoryOf(relativeToFile) / target`, so that `Include {"b.h", true}`
with `relativeToFile = /proj/src/a.cc` resolves to `/proj/src/b.h`.  The
code instead joins the `relative_to` argument itself with the target
(line 168: `relative_to / p`), producing `/proj/src/a.cc/b.h`, which is
not a regular file, so resolution falls through to the search paths and
returns `/proj/include/b.h` — even though `/proj/src/b.h` exists. -/
theorem c2_quoted_relative_step_misses :
    resolve proj_fs ⟨"b.h", true⟩ [⟨true, ["proj", "include"]⟩]
        ⟨true, ["proj", "src", "a.cc"]⟩
        = some ⟨true, ["proj", "include", "b.h"]⟩ ∧
      is_regular_file proj_fs ⟨true, ["proj", "src", "b.h"]⟩ = true ∧
      resolve proj_fs ⟨"b.h", true⟩ [⟨true, ["proj", "include"]⟩]
        ⟨true, ["proj", "src", "a.cc"]⟩
        ≠ some ⟨true, ["proj", "src", "b.h"]⟩ := by
  refine ⟨by decide, by decide, by decide⟩

/-- C3: for every line of the form
blanks, `#`, blanks, `include`, blanks, opening delimiter, target text,
closing delimiter (and anything after it), the scanner emits exactly one
`Include` whose target is the text between the delimiters, verbatim, and
whose quoted flag matches the delimiter kind (`"` gives `true`, `<>` gives
`false`). -/
theorem c3_scanner_emits_one_include (ws1 ws2 ws3 x rest : List Char)
    (quoted : Bool)
    (h1 : ∀ c ∈ ws1, isBlank c = true) (h2 : ∀ c ∈ ws2, isBlank c = true)
    (h3 : ∀ c ∈ ws3, isBlank c = true)
    (hx : ∀ c ∈ x, c ≠ (if quoted then '"' else '>')) :
    scanLine (String.mk (ws1 ++ '#' :: (ws2 ++ ("include".toList ++
        (ws3 ++ (if quoted then '"' else '<') ::
          (x ++ (if quoted then '"' else '>') :: rest))))))
      = some ⟨x.asString, quoted⟩ := by
  cases quoted with
  | false => exact scanLine_angle ws1 ws2 ws3 x rest h1 h2 h3 hx
  | true => exact scanLine_quote ws1 ws2 ws3 x rest h1 h2 h3 hx

/-- Witness for C3 at the concrete line with embedded blanks and a target
containing internal spaces and a slash. -/
theorem c3_scanner_emits_one_include_witness :
    scanLine (String.mk ([' '] ++ '#' :: ([' ', '\t'] ++ ("include".toList ++
        ([' '] ++ '"' :: (" a/b.h ".toList ++ '"' :: [' ']))))))
      = some ⟨" a/b.h ", true⟩ :=
  c3_scanner_emits_one_include [' '] [' ', '\t'] [' '] " a/b.h ".toList [' ']
    true (by decide) (by decide) (by decide) (by decide)

/-- C4: an include whose target is an absolute path that is not an
existing regular file resolves to `NotFound` (`none`) for every search
path list and every `relative_to` argument: the absolute-path check on
lines 163-165 returns before any relative or search-path attempt. -/
theorem c4_absolute_missing_is_notfound (fs : FileSystem) (inc : Include)
    (include_paths : List FsPath) (relative_to : FsPath)
    (habs : (parsePath inc.target).absolute = true)
    (hmiss : is_regular_file fs (parsePath inc.target) = false) :
    resolve fs inc include_paths relative_to = none := by
  unfold resolve
  simp [hmiss, habs]

/-- Witness for C4: the quoted include `/missing/b.h` does not exist, yet
a file named `b.h` exists both under the search path `/proj/include` and
next to the `relative_to` directory; resolution still fails. -/
theorem c4_absolute_missing_is_notfound_witness :
    resolve proj_fs ⟨"/missing/b.h", true⟩ [⟨true, ["proj", "include"]⟩]
      ⟨true, ["proj", "src"]⟩ = none :=
  c4_absolute_missing_is_notfound proj_fs ⟨"/missing/b.h", true⟩
    [⟨true, ["proj", "include"]⟩] ⟨true, ["proj", "src"]⟩
    (by decide) (by decide)

/-- C5: a `Status` is successful exactly when it is `EXIT 0` (a non-zero
exit and every signal are failures), and normalisation keeps an exit code
and maps a signal to `128 + signal`. -/
theorem c5_status_success_and_normalization :
    (∀ s : Status, s.toBool = true ↔ s = Status.EXIT 0) ∧
      (∀ c : Int, (Status.EXIT c).normalize_to_exit_code = c) ∧
      (∀ g : Int, (Status.SIGNAL g).normalize_to_exit_code = 128 + g) := by
  refine ⟨fun s => ?_, fun c => rfl, fun g => rfl⟩
  cases s with
  | EXIT c => simp [Status.toBool]
  | SIGNAL g => simp [Status.toBool]

/-- C6: on the rebuild path (binary strictly older than source, compile
successful) the bootstrap runs exactly the compile command and then the
rebuilt binary alone, and terminates with the normalized status of the
rerun: the exit code unchanged for a normal exit, `128 + signal` for a
signal. -/
theorem c6_rebuild_reexecs_and_forwards_status (pp sp comp : String)
    (w : BootWorld)
    (hstale : w.program_mtime < w.source_mtime)
    (hcompile : (w.compile_status).toBool = true) :
    rebuild_self pp sp comp w =
        ⟨true, [[comp, "-std=c++20", "-o", pp, sp], [pp]],
         .exited (w.rerun_status).normalize_to_exit_code⟩ ∧
      (∀ c, w.rerun_status = Status.EXIT c →
        (rebuild_self pp sp comp w).result = BootResult.exited c) ∧
      (∀ g, w.rerun_status = Status.SIGNAL g →
        (rebuild_self pp sp comp w).result = BootResult.exited (128 + g)) := by
  have hge : ¬ w.program_mtime ≥ w.source_mtime := not_le.mpr hstale
  refine ⟨?_, ?_, ?_⟩
  · simp [rebuild_self, hge, hcompile]
  · intro c hc
    simp [rebuild_self, hge, hcompile, hc, Status.normalize_to_exit_code]
  · intro g hg
    simp [rebuild_self, hge, hcompile, hg, Status.normalize_to_exit_code]

/-- Witness for C6: a binary with timestamp 0 against a source with
timestamp 1, a successful compile, and a rerun killed by signal 9 makes
the process exit with code `128 + 9`. -/
theorem c6_rebuild_reexecs_and_forwards_status_witness :
    (rebuild_self "./make" "make.cc" "g++"
        ⟨0, 1, Status.EXIT 0, Status.SIGNAL 9⟩).result
      = BootResult.exited (128 + 9) :=
  (c6_rebuild_reexecs_and_forwards_status "./make" "make.cc" "g++"
    ⟨0, 1, Status.EXIT 0, Status.SIGNAL 9⟩ (by decide) rfl).2.2 9 rfl

/-- C7: whenever the binary is at least as new as its source, the
bootstrap is a no-op: no backup, no command of any kind (in particular no
compiler invocation and no re-execution), and control falls through. -/
theorem c7_fresh_binary_is_noop (pp sp comp : String) (w : BootWorld)
    (hfresh : w.program_mtime ≥ w.source_mtime) :
    rebuild_self pp sp comp w = ⟨false, [], BootResult.fallthrough⟩ := by
  simp [rebuild_self, hfresh]

/-- Witness for C7 at equal timestamps, with statuses that would rebuild
and terminate if the branch were wrongly taken. -/
theorem c7_fresh_binary_is_noop_witness :
    rebuild_self "./make" "make.cc" "g++"
        ⟨5, 5, Status.EXIT 0, Status.SIGNAL 9⟩
      = ⟨false, [], BootResult.fallthrough⟩ :=
  c7_fresh_binary_is_noop "./make" "make.cc" "g++"
    ⟨5, 5, Status.EXIT 0, Status.SIGNAL 9⟩ (by decide)

/-- C8: a missing or unreadable file (the input stream fails to open, so
the first `getline` fails) makes the extractor return the empty include
set instead of signalling an error. -/
theorem c8_missing_file_yields_empty :
    includes none = (∅ : Finset Include) := rfl

/-- C9: calling the process runner with an empty argument vector hits the
`panic_if` guard and aborts with the usage diagnostic, never returning a
status; with a non-empty vector that abort branch is never taken,
whatever the fork outcome and child status. -/
theorem c9_empty_argv_is_fatal :
    (∀ (fork_ok : Bool) (child : Status),
        cmd_run [] fork_ok child = RunResult.panicked empty_command_msg) ∧
      (∀ (argv : List String) (fork_ok : Bool) (child : Status), argv ≠ [] →
        cmd_run argv fork_ok child ≠ RunResult.panicked empty_command_msg) := by
  constructor
  · intro fork_ok child
    rfl
  · intro argv fork_ok child hne
    cases argv with
    | nil => exact absurd rfl hne
    | cons a as =>
      unfold cmd_run
      simp only [List.isEmpty_cons, Bool.false_eq_true, if_false]
      cases fork_ok with
      | false =>
        show RunResult.panicked "Failed to execute command"
          ≠ RunResult.panicked empty_command_msg
        decide
      | true => exact fun h => RunResult.noConfusion h

/-- Witness for C9: the runner panics on `[]` and does not hit that branch
on a one-element vector. -/
theorem c9_empty_argv_is_fatal_witness :
    cmd_run [] true (Status.EXIT 0) = RunResult.panicked empty_command_msg ∧
      cmd_run ["ls"] true (Status.EXIT 0)
        ≠ RunResult.panicked empty_command_msg :=
  ⟨c9_empty_argv_is_fatal.1 true (Status.EXIT 0),
   c9_empty_argv_is_fatal.2 ["ls"] true (Status.EXIT 0) (by decide)⟩

/-- C10: a directive whose opening delimiter is immediately followed by
the matching closing delimiter is accepted: the scanner emits an `Include`
with the empty target and the flag of the delimiter kind. -/
theorem c10_empty_target_accepted (ws1 ws2 ws3 rest : List Char)
    (quoted : Bool)
    (h1 : ∀ c ∈ ws1, isBlank c = true) (h2 : ∀ c ∈ ws2, isBlank c = true)
    (h3 : ∀ c ∈ ws3, isBlank c = true) :
    scanLine (String.mk (ws1 ++ '#' :: (ws2 ++ ("include".toList ++
        (ws3 ++ (if quoted then '"' else '<') ::
          ((if quoted then '"' else '>') :: rest))))))
      = some ⟨"", quoted⟩ := by
  cases quoted with
  | false => exact scanLine_angle ws1 ws2 ws3 [] rest h1 h2 h3 (by simp)
  | true => exact scanLine_quote ws1 ws2 ws3 [] rest h1 h2 h3 (by simp)

/-- Witness for C10 at the line `#include <>`. -/
theorem c10_empty_target_accepted_witness :
    scanLine (String.mk ([] ++ '#' :: ([] ++ ("include".toList ++
        ([' '] ++ '<' :: ('>' :: []))))))
      = some ⟨"", false⟩ :=
  c10_empty_target_accepted [] [] [' '] [] false
    (by decide) (by decide) (by decide)

end make
